import Mathlib

/-!
Verification development for the EEG neurodegeneration-detection frontend.

The definitions below are a shallow embedding of the stateful core of the
application: the submission handler in `src/frontend/src/pages/UploadEEG.jsx`
(`handleFileChange`, `handleSubmit`), the patient-registry page
`src/frontend/src/pages/Patients.jsx` (load/seed effect, filter effect,
`handleDeletePatient`, the distribution-chart percentages), and the primary
result selection in `src/frontend/src/pages/Results.jsx`.

Conventions of the embedding:
* `localStorage` is modelled as explicit state (`AppState`): the parsed value
  of the `latestAnalysis` key and the parsed value of the `patients` key.
* The network call `analyzeEEG` is an external collaborator; its outcome is
  passed to `handleSubmit` as an `Except String AnalysisResponse` argument.
* JavaScript property access on a possibly-missing key is an `Option`; the
  `TypeError` thrown by reading a property of `undefined` becomes the
  failure branch of the handler.
* Clock reads (`new Date().toISOString()`, `toLocaleDateString()`) are passed
  in as opaque string arguments.
-/

namespace EEG

/-! ### Decimal formatting, as used by the JavaScript template literal
`MED-2024-$\x7bString(existingPatients.length + 1).padStart(3, '0')\x7d`.
`String(n)` on a natural number is the base-10 numeral, which is exactly
`Nat.repr`.  `decDigits` is a proof-friendly big-endian digit list used to
reason about `Nat.repr`; `decVal` decodes a digit string back to a number. -/

/-- Big-endian decimal digits of a natural number (mirrors the output of
`Nat.toDigitsCore` at base 10). -/
def decDigits (n : Nat) : List Char :=
  if _h : n < 10 then [Nat.digitChar n]
  else decDigits (n / 10) ++ [Nat.digitChar (n % 10)]
termination_by n
decreasing_by omega

/-- Decode a decimal digit string (most significant first) to a number. -/
def decVal (l : List Char) : Nat :=
  l.foldl (fun a c => 10 * a + (c.toNat - 48)) 0

theorem digitChar_toNat_sub (d : Nat) (h : d < 10) :
    (Nat.digitChar d).toNat - 48 = d := by
  interval_cases d <;> rfl

theorem decVal_append_digit (l : List Char) (c : Char) :
    decVal (l ++ [c]) = 10 * decVal l + (c.toNat - 48) := by
  simp [decVal, List.foldl_append]

theorem decVal_decDigits (n : Nat) : decVal (decDigits n) = n := by
  induction n using Nat.strong_induction_on with
  | _ n ih =>
    rw [decDigits]
    split
    · next h =>
      simp [decVal, digitChar_toNat_sub n h]
    · next h =>
      rw [decVal_append_digit, ih (n / 10) (by omega),
        digitChar_toNat_sub _ (Nat.mod_lt _ (by norm_num))]
      omega

theorem toDigitsCore_eq_decDigits (fuel : Nat) :
    ∀ (n : Nat) (ds : List Char), n < fuel →
      Nat.toDigitsCore 10 fuel n ds = decDigits n ++ ds := by
  induction fuel with
  | zero => intro n ds h; omega
  | succ f ih =>
    intro n ds h
    rw [Nat.toDigitsCore]
    by_cases h10 : n / 10 = 0
    · rw [if_pos h10, decDigits]
      rw [dif_pos (by omega : n < 10)]
      have : n % 10 = n := Nat.mod_eq_of_lt (by omega)
      simp [this]
    · have hn : decDigits n = decDigits (n / 10) ++ [Nat.digitChar (n % 10)] := by
        rw [decDigits, dif_neg (by omega : ¬ n < 10)]
      rw [if_neg h10, ih (n / 10) _ (by omega), hn, List.append_assoc]
      rfl

theorem repr_data (n : Nat) : (Nat.repr n).data = decDigits n := by
  show ((Nat.toDigits 10 n).asString).data = decDigits n
  rw [Nat.toDigits, toDigitsCore_eq_decDigits (n + 1) n [] (Nat.lt_succ_self n)]
  simp [List.asString]

theorem decVal_replicate_zero (k : Nat) (l : List Char) :
    decVal (List.replicate k '0' ++ l) = decVal l := by
  induction k with
  | zero => simp
  | succ k ih =>
    rw [List.replicate_succ, List.cons_append]
    simpa [decVal] using ih

/-! ### Patient id generation (UploadEEG.jsx line 103) -/

/-- Model of JavaScript `s.padStart(3, '0')`. -/
def padStart3 (s : String) : String :=
  ⟨List.replicate (3 - s.data.length) '0' ++ s.data⟩

/-- Model of the id derivation in `handleSubmit`:
the template literal `MED-2024-` followed by `String(count + 1).padStart(3, '0')`,
where `count` is the number of records currently in the registry. -/
def patientId (count : Nat) : String :=
  "MED-2024-" ++ padStart3 (Nat.repr (count + 1))

theorem patientId_injective : Function.Injective patientId := by
  intro a b h
  have hd := congrArg String.data h
  simp only [patientId, padStart3, String.data_append] at hd
  have hcancel := List.append_cancel_left hd
  have hval := congrArg decVal hcancel
  rw [decVal_replicate_zero, decVal_replicate_zero, repr_data, repr_data,
    decVal_decDigits, decVal_decDigits] at hval
  omega

/-! ### JavaScript string primitives used by the pages -/

/-- Tests whether the first list is an initial segment of the second
(helper for the substring test of `String.prototype.includes`). -/
def leadsWith : List Char → List Char → Bool
  | [], _ => true
  | _ :: _, [] => false
  | c :: cs, d :: ds => c == d && leadsWith cs ds

/-- Tests whether `needle` occurs contiguously inside `hay`. -/
def hasSub : List Char → List Char → Bool
  | [], needle => leadsWith needle []
  | c :: t, needle => leadsWith needle (c :: t) || hasSub t needle

/-- Model of JavaScript `s.includes(sub)` (case-sensitive substring test). -/
def jsIncludes (s sub : String) : Bool :=
  hasSub s.data sub.data

/-- Model of JavaScript `s.toLowerCase()`: character-wise lowering (the
inputs of this code base are ASCII). -/
def jsToLower (s : String) : String :=
  ⟨s.data.map Char.toLower⟩

/-- Model of JavaScript `s.trim()`: strip leading and trailing whitespace. -/
def jsTrim (s : String) : String :=
  ⟨((s.data.dropWhile Char.isWhitespace).reverse.dropWhile Char.isWhitespace).reverse⟩

/-! ### Data model

The shapes of the JavaScript objects handled by the pages.  Keys that some
producers omit (`notes` is absent on the demo seed records, `confidence` is
absent on records created by `handleSubmit`) are `Option`s. -/

structure PatientData where
  name : String
  age : String
  medicalId : String
  notes : String
deriving DecidableEq

structure ModelResult where
  predicted_class : String
  confidence : Rat
deriving DecidableEq

/-- The `results` object of a classification response: either recognized
model key may be absent. -/
structure ModelResults where
  QDA : Option ModelResult
  TabNet : Option ModelResult
deriving DecidableEq

/-- A parsed response of the `analyzeEEG` endpoint; a response lacking the
`results` key has `results = none`. -/
structure AnalysisResponse where
  results : Option ModelResults
deriving DecidableEq

/-- The object written to the `latestAnalysis` storage key by `handleSubmit`
(UploadEEG.jsx lines 91-98): the spread of the response plus patient info,
timestamp and file name. -/
structure StoredAnalysis where
  response : AnalysisResponse
  patientInfo : PatientData
  timestamp : String
  fileName : String
deriving DecidableEq

/-- A record of the `patients` storage key. -/
structure Patient where
  id : String
  name : String
  age : String
  medicalId : String
  notes : Option String
  lastTest : String
  status : String
  riskLevel : String
  timestamp : String
  confidence : Option String
deriving DecidableEq

/-- The two storage keys the submission flow touches, in parsed form. -/
structure AppState where
  latestAnalysis : Option StoredAnalysis
  patients : List Patient
deriving DecidableEq

structure EEGFile where
  name : String
  size : Nat
deriving DecidableEq

/-! ### File selection (UploadEEG.jsx lines 24-46) -/

def allowedTypes : List String := [".edf", ".csv", ".txt", ".mat"]

/-- Suffix of the list starting at the last occurrence of a dot, if any. -/
def lastDotSuffix : List Char → Option (List Char)
  | [] => none
  | c :: t =>
    match lastDotSuffix t with
    | some s => some s
    | none => if c = '.' then some (c :: t) else none

/-- Model of `selectedFile.name.toLowerCase().substring(selectedFile.name.lastIndexOf('.'))`:
when the name has no dot, `lastIndexOf` is -1 and `substring(-1)` clamps to 0,
yielding the whole lowercased name. -/
def fileExtension (name : String) : String :=
  match lastDotSuffix (jsToLower name).data with
  | some s => ⟨s⟩
  | none => jsToLower name

/-- Model of `handleFileChange` restricted to its data effect: the resulting
selected file (`setFile`) and error message (`setError`).  A rejected file is
reset to `none`. -/
def handleFileChange (selected : Option EEGFile) : Option EEGFile × Option String :=
  match selected with
  | none => (none, none)
  | some f =>
    if fileExtension f.name ∉ allowedTypes then
      (none, some "Please upload a valid EEG file (.edf, .csv, .txt, .mat)")
    else if f.size > 100 * 1024 * 1024 then
      (none, some "File size must be less than 100MB")
    else (some f, none)

/-! ### Submission (UploadEEG.jsx lines 68-127) -/

/-- The risk derivation inlined in `handleSubmit` (UploadEEG.jsx line 107):
`predicted_class === 'Seizure Detected' ? 'High Risk' : 'Low Risk'`. -/
def riskLevelOf (predictedClass : String) : String :=
  if predictedClass = "Seizure Detected" then "High Risk" else "Low Risk"

inductive SubmitOutcome where
  | noFileError
  | noNameError
  | analysisFailed (message : String)
  | success
deriving DecidableEq

/-- Model of `handleSubmit`.  `net` is the outcome of the awaited
`analyzeEEG(file)` call; `now` and `today` are the clock reads.  Returns the
outcome, the final storage state, and whether the network call was reached.
Property access on a missing key (`response.results` absent, or
`response.results.QDA` absent) throws a `TypeError`, which the surrounding
`try/catch` turns into the failure branch — note that the `latestAnalysis`
write at line 98 has already happened at that point. -/
def handleSubmit (file : Option EEGFile) (patientData : PatientData)
    (net : Except String AnalysisResponse) (now today : String) (st : AppState) :
    SubmitOutcome × AppState × Bool :=
  match file with
  | none => (.noFileError, st, false)
  | some f =>
    if jsTrim patientData.name = "" then (.noNameError, st, false)
    else
      match net with
      | .error e => (.analysisFailed e, st, true)
      | .ok response =>
        let analysisData : StoredAnalysis :=
          { response := response, patientInfo := patientData,
            timestamp := now, fileName := f.name }
        let st1 : AppState := { st with latestAnalysis := some analysisData }
        match response.results with
        | none => (.analysisFailed "TypeError", st1, true)
        | some rs =>
          match rs.QDA with
          | none => (.analysisFailed "TypeError", st1, true)
          | some qda =>
            let newPatient : Patient :=
              { id := patientId st.patients.length
                name := patientData.name
                age := patientData.age
                medicalId := patientData.medicalId
                notes := some patientData.notes
                lastTest := today
                status := qda.predicted_class
                riskLevel := riskLevelOf qda.predicted_class
                timestamp := now
                confidence := none }
            (.success,
              { latestAnalysis := some analysisData,
                patients := st.patients ++ [newPatient] }, true)

/-! ### Primary model selection (Results.jsx line 96) -/

/-- Model of `const primaryResult = results.QDA || results.TabNet;`
(an object is always truthy in JavaScript, so `||` falls through exactly
when the `QDA` key is absent). -/
def primaryResult (results : ModelResults) : Option ModelResult :=
  match results.QDA with
  | some q => some q
  | none => results.TabNet

/-! ### Patient registry operations (Patients.jsx) -/

/-- Model of the confirmed path of `handleDeletePatient` (lines 349-358):
`patients.filter(patient => patient.id !== patientId)`. -/
def handleDeletePatient (patients : List Patient) (pid : String) : List Patient :=
  patients.filter (fun p => p.id != pid)

/-- Search predicate of the filter effect (lines 327-330). -/
def searchMatches (searchTerm : String) (p : Patient) : Bool :=
  jsIncludes (jsToLower p.name) (jsToLower searchTerm) || jsIncludes (jsToLower p.id) (jsToLower searchTerm)

/-- Status predicate of the filter effect (lines 334-342): a `switch` on the
selected filter; note the `normal` case is an equality test while the other
two are substring tests, and an unrecognized filter matches everything. -/
def statusFilterMatches (filterStatus : String) (p : Patient) : Bool :=
  let status := jsToLower p.status
  if filterStatus = "normal" then status == "normal"
  else if filterStatus = "seizure" then jsIncludes status "seizure"
  else if filterStatus = "neurodegeneration" then jsIncludes status "neurodegeneration"
  else true

/-- Model of the filter effect (lines 322-346): the search filter is applied
only when the term is nonempty (JavaScript truthiness of `searchTerm`), and
the status filter only when it is not `all`. -/
def filterPatients (patients : List Patient) (searchTerm filterStatus : String) :
    List Patient :=
  let f1 := if searchTerm ≠ "" then patients.filter (searchMatches searchTerm) else patients
  if filterStatus ≠ "all" then f1.filter (statusFilterMatches filterStatus) else f1

/-- The five demonstration records seeded by the load effect
(Patients.jsx lines 256-312). -/
def demoPatients : List Patient :=
  [{ id := "MED-2024-001", name := "John Smith", age := "45",
     medicalId := "MED-2024-001", notes := none, lastTest := "Aug 15, 2024",
     status := "Seizure Detected", riskLevel := "High Risk",
     timestamp := "2024-08-15T10:30:00.000Z", confidence := some "89.7%" },
   { id := "MED-2024-002", name := "Sarah Johnson", age := "34",
     medicalId := "MED-2024-002", notes := none, lastTest := "Aug 20, 2024",
     status := "Normal", riskLevel := "Low Risk",
     timestamp := "2024-08-20T14:15:00.000Z", confidence := some "97.2%" },
   { id := "MED-2024-003", name := "Robert Wilson", age := "67",
     medicalId := "MED-2024-003", notes := none, lastTest := "Aug 18, 2024",
     status := "Neurodegeneration Detected", riskLevel := "Medium Risk",
     timestamp := "2024-08-18T09:45:00.000Z", confidence := some "78.4%" },
   { id := "MED-2024-004", name := "Maria Garcia", age := "72",
     medicalId := "MED-2024-004", notes := none, lastTest := "Aug 22, 2024",
     status := "Neurodegeneration Detected", riskLevel := "High Risk",
     timestamp := "2024-08-22T16:20:00.000Z", confidence := some "85.1%" },
   { id := "MED-2024-005", name := "David Chen", age := "28",
     medicalId := "MED-2024-005", notes := none, lastTest := "Aug 23, 2024",
     status := "Normal", riskLevel := "Low Risk",
     timestamp := "2024-08-23T11:45:00.000Z", confidence := some "95.8%" }]

/-- Model of the load effect (Patients.jsx lines 250-320).  The argument is
the content of the `patients` storage key as seen by `JSON.parse`: `none`
when the key is absent (then `getItem` returns `null`, `|| '[]'` substitutes
the empty array literal, and the parse yields `[]`), otherwise the outcome of
parsing the stored text — `JSON.parse` is the external platform parser, so it
enters the model as its result.  A parse failure is NOT caught by the effect:
the exception propagates to the caller. -/
def loadPatients (stored : Option (Except String (List Patient))) :
    Except String (List Patient) :=
  match stored with
  | none => .ok demoPatients
  | some (.error e) => .error e
  | some (.ok ps) => .ok (if ps.length = 0 then demoPatients else ps)

/-! ### Statistics (Patients.jsx lines 392-396 and 569-611) -/

def normalCount (ps : List Patient) : Nat :=
  (ps.filter (fun p => p.status == "Normal")).length

def seizureCount (ps : List Patient) : Nat :=
  (ps.filter (fun p => jsIncludes p.status "Seizure")).length

def neurodegenerationCount (ps : List Patient) : Nat :=
  (ps.filter (fun p => jsIncludes p.status "Neurodegeneration")).length

/-- Model of the guarded percentage of the distribution chart:
`totalPatients > 0 ? (count / totalPatients) * 100 : 0`. -/
def distPercent (count total : Nat) : Rat :=
  if 0 < total then ((count : Rat) / (total : Rat)) * 100 else 0

/-- The three distribution-chart percentages (Normal, Seizure,
Neurodegeneration). -/
def computeDistribution (ps : List Patient) : Rat × Rat × Rat :=
  (distPercent (normalCount ps) ps.length,
   distPercent (seizureCount ps) ps.length,
   distPercent (neurodegenerationCount ps) ps.length)

/-! ### Registry create/delete sequences (for the id-uniqueness analysis)

`RegOp.create` is the registry effect of a successful `handleSubmit`
(UploadEEG.jsx lines 101-112): append a record whose id is generated from the
current record count.  `RegOp.delete` is the confirmed
`handleDeletePatient`. -/

/-- Everything of a patient record except the generated id. -/
structure PatientFields where
  name : String
  age : String
  medicalId : String
  notes : Option String
  lastTest : String
  status : String
  riskLevel : String
  timestamp : String
  confidence : Option String
deriving DecidableEq

def Patient.withId (pid : String) (f : PatientFields) : Patient :=
  { id := pid, name := f.name, age := f.age, medicalId := f.medicalId,
    notes := f.notes, lastTest := f.lastTest, status := f.status,
    riskLevel := f.riskLevel, timestamp := f.timestamp, confidence := f.confidence }

inductive RegOp where
  | create (fields : PatientFields)
  | delete (pid : String)
deriving DecidableEq

def RegOp.isCreate : RegOp → Bool
  | .create _ => true
  | .delete _ => false

def RegOp.isDelete : RegOp → Bool
  | .create _ => false
  | .delete _ => true

def applyRegOp (ps : List Patient) : RegOp → List Patient
  | .create f => ps ++ [Patient.withId (patientId ps.length) f]
  | .delete pid => handleDeletePatient ps pid

def runRegOps (ps : List Patient) (ops : List RegOp) : List Patient :=
  ops.foldl applyRegOp ps

/-- The registry states in which the ids are exactly the generated ids of
positions `0, …, count-1` — this holds for the empty registry, for the seed
data, and is preserved by creates. -/
abbrev canonicalIds (ps : List Patient) : Prop :=
  ps.map Patient.id = (List.range ps.length).map patientId

/-- The registry effect of a successful submission is exactly a
`RegOp.create`. -/
theorem handleSubmit_patients_eq_create (f : EEGFile) (pd : PatientData)
    (resp : AnalysisResponse) (rs : ModelResults) (qda : ModelResult)
    (now today : String) (st : AppState)
    (hname : ¬ jsTrim pd.name = "") (hres : resp.results = some rs)
    (hq : rs.QDA = some qda) :
    (handleSubmit (some f) pd (.ok resp) now today st).2.1.patients =
      applyRegOp st.patients (.create
        { name := pd.name, age := pd.age, medicalId := pd.medicalId,
          notes := some pd.notes, lastTest := today,
          status := qda.predicted_class,
          riskLevel := riskLevelOf qda.predicted_class,
          timestamp := now, confidence := none }) := by
  simp [handleSubmit, hname, hres, hq, applyRegOp, Patient.withId]

/-! ### Concrete fixtures used by counterexamples and witnesses -/

def sampleFields : PatientFields :=
  { name := "Alice Adams", age := "41", medicalId := "M-1", notes := none,
    lastTest := "Sep 1, 2025", status := "Normal", riskLevel := "Low Risk",
    timestamp := "2025-09-01T00:00:00.000Z", confidence := none }

def sampleFile : EEGFile := { name := "recording.edf", size := 2048 }

def badFile : EEGFile := { name := "malware.exe", size := 2048 }

def samplePD : PatientData :=
  { name := "Jane Doe", age := "30", medicalId := "MED-X", notes := "none" }

def blankPD : PatientData :=
  { name := "   ", age := "30", medicalId := "MED-X", notes := "none" }

def qdaNormal : ModelResult := { predicted_class := "Normal", confidence := 97 }

def qdaNeuro : ModelResult :=
  { predicted_class := "Neurodegeneration Detected", confidence := 78 }

def tabNetSeizure : ModelResult :=
  { predicted_class := "Seizure Detected", confidence := 88 }

def rsQDANormal : ModelResults := { QDA := some qdaNormal, TabNet := none }

def rsNeuro : ModelResults := { QDA := some qdaNeuro, TabNet := none }

def rsTabNetOnly : ModelResults := { QDA := none, TabNet := some tabNetSeizure }

def rsNoModels : ModelResults := { QDA := none, TabNet := none }

def respQDANormal : AnalysisResponse := { results := some rsQDANormal }

def respNeuro : AnalysisResponse := { results := some rsNeuro }

def respTabNetOnly : AnalysisResponse := { results := some rsTabNetOnly }

def respNoModels : AnalysisResponse := { results := some rsNoModels }

def emptyState : AppState := { latestAnalysis := none, patients := [] }

def oldStored : StoredAnalysis :=
  { response := respQDANormal, patientInfo := samplePD,
    timestamp := "2025-01-01T00:00:00.000Z", fileName := "old.edf" }

def stWithOld : AppState :=
  { latestAnalysis := some oldStored, patients := [] }

def pAbnormal : Patient := Patient.withId "P-1" { sampleFields with status := "Abnormal" }

/-- The registry reached from an empty store by: create, create, delete of the
first record (not the last-created one), create.  Its two records share the
id MED-2024-002. -/
def dupRegistry : List Patient :=
  runRegOps [] [.create sampleFields, .create sampleFields,
    .delete "MED-2024-001", .create sampleFields]

/-! ### Claim C2 — id uniqueness under create/delete sequences -/

theorem canonicalIds_create (ps : List Patient) (f : PatientFields)
    (h : canonicalIds ps) : canonicalIds (applyRegOp ps (.create f)) := by
  simp only [canonicalIds, applyRegOp, List.map_append, List.length_append,
    List.map_cons, List.map_nil, List.length_cons, List.length_nil] at *
  rw [h, List.range_succ]
  simp [Patient.withId]

theorem canonicalIds_nodup (ps : List Patient) (h : canonicalIds ps) :
    (ps.map Patient.id).Nodup := by
  rw [h]
  exact (List.nodup_range _).map patientId_injective

theorem nodup_delete (ps : List Patient) (pid : String)
    (h : (ps.map Patient.id).Nodup) :
    ((handleDeletePatient ps pid).map Patient.id).Nodup :=
  h.sublist ((ps.filter_sublist).map Patient.id)

theorem canonicalIds_foldl_creates (cs : List RegOp) :
    ∀ ps : List Patient, canonicalIds ps → (∀ op ∈ cs, op.isCreate = true) →
      canonicalIds (List.foldl applyRegOp ps cs) := by
  induction cs with
  | nil => intro ps h _; exact h
  | cons op t ih =>
    intro ps h hc
    match op with
    | .create f =>
      exact ih _ (canonicalIds_create ps f h) (fun o ho => hc o (List.mem_cons_of_mem _ ho))
    | .delete pid =>
      have := hc (.delete pid) (List.mem_cons_self _ _)
      simp [RegOp.isCreate] at this

theorem nodup_foldl_deletes (ds : List RegOp) :
    ∀ ps : List Patient, (ps.map Patient.id).Nodup → (∀ op ∈ ds, op.isDelete = true) →
      ((List.foldl applyRegOp ps ds).map Patient.id).Nodup := by
  induction ds with
  | nil => intro ps h _; exact h
  | cons op t ih =>
    intro ps h hd
    match op with
    | .create f =>
      have := hd (.create f) (List.mem_cons_self _ _)
      simp [RegOp.isDelete] at this
    | .delete pid =>
      exact ih _ (nodup_delete ps pid h) (fun o ho => hd o (List.mem_cons_of_mem _ ho))

/-- Claim C2 (amended): starting from a registry whose ids are the generated
ids of positions 0..count-1 (true of the empty registry and of the seed
data), any sequence of creates followed by deletes keeps all ids pairwise
distinct — since every prefix of such a sequence is again of this shape, ids
are distinct at every observation point of such a sequence.  The claim fails
for creates performed after a delete of a non-last record (see the
counterexample theorem). -/
theorem registry_ids_unique_creates_then_deletes (start : List Patient)
    (cs ds : List RegOp) (hstart : canonicalIds start)
    (hc : ∀ op ∈ cs, op.isCreate = true) (hd : ∀ op ∈ ds, op.isDelete = true) :
    ((runRegOps start (cs ++ ds)).map Patient.id).Nodup := by
  rw [runRegOps, List.foldl_append]
  exact nodup_foldl_deletes ds _
    (canonicalIds_nodup _ (canonicalIds_foldl_creates cs start hstart hc)) hd

/-- Claim C2 witness: the amended theorem applied to the seeded registry,
one create and one delete. -/
theorem registry_ids_unique_creates_then_deletes_witness :
    canonicalIds demoPatients ∧
    ((runRegOps demoPatients ([RegOp.create sampleFields] ++ [RegOp.delete "MED-2024-002"])).map
      Patient.id).Nodup :=
  ⟨by decide,
   registry_ids_unique_creates_then_deletes demoPatients
     [RegOp.create sampleFields] [RegOp.delete "MED-2024-002"]
     (by decide) (by decide) (by decide)⟩

/-- Claim C2 counterexample: create, create, delete of the first record
(which is not the last-created one), create — the new id is generated from
the current count (1 + 1 = 2), duplicating the id of the remaining record,
so the ids in the registry are not pairwise distinct. -/
theorem registry_id_collision_cex :
    dupRegistry.map Patient.id = ["MED-2024-002", "MED-2024-002"] ∧
    ¬ (dupRegistry.map Patient.id).Nodup := by
  constructor
  · decide
  · decide

/-! ### Claim C6 — delete semantics -/

theorem delete_length_of_mem (ps : List Patient) (pid : String)
    (hnodup : (ps.map Patient.id).Nodup) (hmem : ∃ p ∈ ps, p.id = pid) :
    (handleDeletePatient ps pid).length = ps.length - 1 := by
  induction ps with
  | nil => simp at hmem
  | cons p t ih =>
    rw [List.map_cons, List.nodup_cons] at hnodup
    obtain ⟨hnotin, hnd⟩ := hnodup
    by_cases hp : p.id = pid
    · have hall : ∀ q ∈ t, (q.id != pid) = true := by
        intro q hq
        have hmemid : q.id ∈ t.map Patient.id := List.mem_map_of_mem _ hq
        simp only [bne_iff_ne, ne_eq]
        intro hqp
        apply hnotin
        rw [hp, ← hqp]
        exact hmemid
      simp only [handleDeletePatient, List.filter_cons, hp]
      rw [if_neg (by simp), List.filter_eq_self.mpr hall]
      simp
    · obtain ⟨q, hq, hqid⟩ := hmem
      have hq' : q ∈ t := by
        rcases List.mem_cons.mp hq with hqp | hqt
        · exact absurd (hqp ▸ hqid) hp
        · exact hqt
      have ih' := ih hnd ⟨q, hq', hqid⟩
      have htpos : 0 < t.length := List.length_pos_of_mem hq'
      simp only [handleDeletePatient, List.filter_cons] at ih' ⊢
      rw [if_pos (by simp [hp])]
      simp only [List.length_cons]
      omega

/-- Claim C6 (amended): on a registry whose ids are pairwise distinct,
delete removes exactly one record when the id is present (the length drops
by exactly 1), is a no-op when the id is absent, a repeated delete of the
same id changes nothing, and the remaining records keep their relative
order (the result is a sublist containing every record with a different
id).  On a registry with duplicated ids — reachable via the count-based id
generation — a single delete can remove more than one record (see the
counterexample theorem). -/
theorem delete_semantics (ps : List Patient) (pid : String)
    (hnodup : (ps.map Patient.id).Nodup) :
    ((∃ p ∈ ps, p.id = pid) → (handleDeletePatient ps pid).length = ps.length - 1)
    ∧ ((∀ p ∈ ps, p.id ≠ pid) → handleDeletePatient ps pid = ps)
    ∧ handleDeletePatient (handleDeletePatient ps pid) pid = handleDeletePatient ps pid
    ∧ (handleDeletePatient ps pid).Sublist ps
    ∧ (∀ p ∈ ps, p.id ≠ pid → p ∈ handleDeletePatient ps pid) := by
  refine ⟨delete_length_of_mem ps pid hnodup, ?_, ?_, ?_, ?_⟩
  · intro hall
    exact List.filter_eq_self.mpr (fun p hp => by simpa using hall p hp)
  · apply List.filter_eq_self.mpr
    intro p hp
    simp only [handleDeletePatient, List.mem_filter] at hp
    exact hp.2
  · exact List.filter_sublist ps
  · intro p hp hne
    exact List.mem_filter.mpr ⟨hp, by simpa using hne⟩

/-- Claim C6 witness: deleting MED-2024-002 from the three-record prefix of
the seed registry removes exactly that one record. -/
theorem delete_semantics_witness :
    ((demoPatients.take 3).map Patient.id).Nodup ∧
    (handleDeletePatient (demoPatients.take 3) "MED-2024-002").length =
      (demoPatients.take 3).length - 1 :=
  ⟨by decide,
   (delete_semantics (demoPatients.take 3) "MED-2024-002" (by decide)).1 (by decide)⟩

/-- Claim C6 counterexample: in the reachable registry whose two records
both carry id MED-2024-002, deleting that id removes both records — the
size decreases by 2, not exactly 1. -/
theorem delete_removes_two_cex :
    (∃ p ∈ dupRegistry, p.id = "MED-2024-002") ∧
    dupRegistry.length = 2 ∧
    (handleDeletePatient dupRegistry "MED-2024-002").length = 0 ∧
    ¬ ((handleDeletePatient dupRegistry "MED-2024-002").length = dupRegistry.length - 1) := by
  refine ⟨by decide, by decide, by decide, by decide⟩

/-! ### Derived record and stored-analysis shapes of a successful submission -/

/-- The patient record appended by a successful `handleSubmit`
(UploadEEG.jsx lines 102-109), as a function of its inputs. -/
def createdPatient (pd : PatientData) (qda : ModelResult) (now today : String)
    (count : Nat) : Patient :=
  { id := patientId count, name := pd.name, age := pd.age, medicalId := pd.medicalId,
    notes := some pd.notes, lastTest := today, status := qda.predicted_class,
    riskLevel := riskLevelOf qda.predicted_class, timestamp := now, confidence := none }

/-- The value written to the `latestAnalysis` key (UploadEEG.jsx lines 91-98). -/
def storedOf (resp : AnalysisResponse) (pd : PatientData) (now fname : String) :
    StoredAnalysis :=
  { response := resp, patientInfo := pd, timestamp := now, fileName := fname }

/-! ### Claim C1 — effects of a malformed classification response -/

/-- Claim C1 (amended): when the response carries no recognized model entry
(no QDA and no TabNet, or no results object at all), the submission fails
and the PatientRegistry is left unchanged — but the ResultStore does NOT
hold its previous value: the handler writes the new analysis record to
`latestAnalysis` (line 98) before it reads the missing model entry, so the
store is overwritten with the malformed record. -/
theorem malformed_response_effects (f : EEGFile) (pd : PatientData)
    (resp : AnalysisResponse) (now today : String) (st : AppState)
    (hname : ¬ jsTrim pd.name = "")
    (hmal : resp.results = none ∨
      ∃ rs : ModelResults, resp.results = some rs ∧ rs.QDA = none ∧ rs.TabNet = none) :
    (handleSubmit (some f) pd (.ok resp) now today st).1 = .analysisFailed "TypeError"
    ∧ (handleSubmit (some f) pd (.ok resp) now today st).2.1.patients = st.patients
    ∧ (handleSubmit (some f) pd (.ok resp) now today st).2.1.latestAnalysis =
        some (storedOf resp pd now f.name) := by
  rcases hmal with h | ⟨rs, hres, hq, _⟩
  · simp [handleSubmit, hname, h, storedOf]
  · simp [handleSubmit, hname, hres, hq, storedOf]

/-- Claim C1 witness: the amended theorem at a concrete malformed response. -/
theorem malformed_response_effects_witness :
    (handleSubmit (some sampleFile) samplePD (.ok respNoModels) "T" "D" stWithOld).1 =
      SubmitOutcome.analysisFailed "TypeError" ∧
    (handleSubmit (some sampleFile) samplePD (.ok respNoModels) "T" "D" stWithOld).2.1.patients =
      stWithOld.patients :=
  ⟨(malformed_response_effects sampleFile samplePD respNoModels "T" "D" stWithOld
      (by decide) (Or.inr ⟨rsNoModels, rfl, rfl, rfl⟩)).1,
   (malformed_response_effects sampleFile samplePD respNoModels "T" "D" stWithOld
      (by decide) (Or.inr ⟨rsNoModels, rfl, rfl, rfl⟩)).2.1⟩

/-- Claim C1 counterexample: submitting a response with neither model entry
against a store holding an older analysis raises the failure and leaves the
registry unchanged, but the ResultStore no longer holds its previous value —
it was overwritten before the failure was detected. -/
theorem malformed_overwrites_resultstore_cex :
    (handleSubmit (some sampleFile) samplePD (.ok respNoModels) "T" "D" stWithOld).1 =
      SubmitOutcome.analysisFailed "TypeError" ∧
    (handleSubmit (some sampleFile) samplePD (.ok respNoModels) "T" "D" stWithOld).2.1.patients =
      stWithOld.patients ∧
    ¬ ((handleSubmit (some sampleFile) samplePD (.ok respNoModels) "T" "D" stWithOld).2.1.latestAnalysis
        = stWithOld.latestAnalysis) := by decide

/-! ### Claim C3 — risk level as a function of status -/

/-- Claim C3 (amended): the risk level of the record created by a successful
submission is a pure, deterministic function of the derived status, namely
`riskLevelOf`: Normal maps to Low Risk, Seizure Detected maps to High Risk,
and Neurodegeneration Detected maps to LOW Risk (not Medium or High: the
code tests only for the seizure class). -/
theorem riskLevel_pure_of_status (f : EEGFile) (pd : PatientData)
    (resp : AnalysisResponse) (rs : ModelResults) (qda : ModelResult)
    (now today : String) (st : AppState)
    (hname : ¬ jsTrim pd.name = "") (hres : resp.results = some rs)
    (hq : rs.QDA = some qda) :
    ((handleSubmit (some f) pd (.ok resp) now today st).2.1.patients =
      st.patients ++ [createdPatient pd qda now today st.patients.length]
    ∧ (createdPatient pd qda now today st.patients.length).status = qda.predicted_class
    ∧ (createdPatient pd qda now today st.patients.length).riskLevel =
        riskLevelOf (createdPatient pd qda now today st.patients.length).status)
    ∧ riskLevelOf "Normal" = "Low Risk"
    ∧ riskLevelOf "Seizure Detected" = "High Risk"
    ∧ riskLevelOf "Neurodegeneration Detected" = "Low Risk" := by
  refine ⟨⟨?_, rfl, rfl⟩, by decide, by decide, by decide⟩
  simp [handleSubmit, hname, hres, hq, createdPatient]

/-- Claim C3 witness: the fixed mapping values, via the amended theorem at a
concrete successful submission. -/
theorem riskLevel_pure_of_status_witness :
    riskLevelOf "Normal" = "Low Risk" ∧
    riskLevelOf "Seizure Detected" = "High Risk" ∧
    riskLevelOf "Neurodegeneration Detected" = "Low Risk" :=
  (riskLevel_pure_of_status sampleFile samplePD respQDANormal rsQDANormal qdaNormal
    "T" "D" emptyState (by decide) rfl rfl).2

/-- Claim C3 counterexample: a successful submission whose primary class is
Neurodegeneration Detected stores risk level Low Risk, not Medium or High. -/
theorem neuro_submission_low_risk_cex :
    (handleSubmit (some sampleFile) samplePD (.ok respNeuro) "T" "D" emptyState).1 =
      SubmitOutcome.success ∧
    (handleSubmit (some sampleFile) samplePD (.ok respNeuro) "T" "D" emptyState).2.1.patients.map
      Patient.status = ["Neurodegeneration Detected"] ∧
    (handleSubmit (some sampleFile) samplePD (.ok respNeuro) "T" "D" emptyState).2.1.patients.map
      Patient.riskLevel = ["Low Risk"] := by decide

/-! ### Claim C4 — primary model selection -/

/-- Claim C4 (amended): the Results page selects QDA as primary when present
and otherwise falls back to TabNet; but the record created by the submission
handler derives its status from the QDA entry ONLY — when the response has a
TabNet entry and no QDA entry, the submission fails (TypeError on the
missing key) and no patient record is created, and likewise when neither
entry is present. -/
theorem primary_model_selection (f : EEGFile) (pd : PatientData)
    (resp : AnalysisResponse) (rs : ModelResults) (now today : String) (st : AppState)
    (hname : ¬ jsTrim pd.name = "") (hres : resp.results = some rs) :
    (∀ q : ModelResult, rs.QDA = some q →
       primaryResult rs = some q
       ∧ (handleSubmit (some f) pd (.ok resp) now today st).1 = .success
       ∧ (handleSubmit (some f) pd (.ok resp) now today st).2.1.patients =
           st.patients ++ [createdPatient pd q now today st.patients.length]
       ∧ (createdPatient pd q now today st.patients.length).status = q.predicted_class)
    ∧ (rs.QDA = none →
       primaryResult rs = rs.TabNet
       ∧ (handleSubmit (some f) pd (.ok resp) now today st).1 = .analysisFailed "TypeError"
       ∧ (handleSubmit (some f) pd (.ok resp) now today st).2.1.patients = st.patients) := by
  constructor
  · intro q hq
    refine ⟨by simp [primaryResult, hq], ?_, ?_, rfl⟩
    · simp [handleSubmit, hname, hres, hq]
    · simp [handleSubmit, hname, hres, hq, createdPatient]
  · intro hq
    refine ⟨by simp [primaryResult, hq], ?_, ?_⟩
    · simp [handleSubmit, hname, hres, hq]
    · simp [handleSubmit, hname, hres, hq]

/-- Claim C4 witness: the amended theorem applied to a QDA-bearing response. -/
theorem primary_model_selection_witness :
    primaryResult rsQDANormal = some qdaNormal ∧
    (handleSubmit (some sampleFile) samplePD (.ok respQDANormal) "T" "D" emptyState).1 =
      SubmitOutcome.success :=
  ⟨((primary_model_selection sampleFile samplePD respQDANormal rsQDANormal
      "T" "D" emptyState (by decide) rfl).1 qdaNormal rfl).1,
   ((primary_model_selection sampleFile samplePD respQDANormal rsQDANormal
      "T" "D" emptyState (by decide) rfl).1 qdaNormal rfl).2.1⟩

/-- Claim C4 counterexample: a response with only a TabNet entry.  TabNet is
the primary model for display, yet the submission fails and no patient
record is created, so no record status equals the primary model class. -/
theorem tabnet_primary_no_record_cex :
    primaryResult rsTabNetOnly = some tabNetSeizure ∧
    (handleSubmit (some sampleFile) samplePD (.ok respTabNetOnly) "T" "D" emptyState).1 =
      SubmitOutcome.analysisFailed "TypeError" ∧
    (handleSubmit (some sampleFile) samplePD (.ok respTabNetOnly) "T" "D" emptyState).2.1.patients
      = [] := by decide

/-! ### Claim C5 — loading a corrupted patients payload -/

/-- Claim C5 (amended): when the `patients` key is absent, or parses to the
empty array, the load effect yields the fixed demonstration seed records;
when the stored text parses to a nonempty registry it is used as-is; but
when the stored payload FAILS to parse, the load effect propagates the parse
error to the caller — there is no recovery to the seed data. -/
theorem load_patients_spec (ps : List Patient) (e : String) :
    loadPatients none = .ok demoPatients
    ∧ loadPatients (some (.ok [])) = .ok demoPatients
    ∧ (ps ≠ [] → loadPatients (some (.ok ps)) = .ok ps)
    ∧ loadPatients (some (.error e)) = .error e := by
  refine ⟨rfl, rfl, ?_, rfl⟩
  intro h
  have hlen : ¬ ps.length = 0 := by simpa [List.length_eq_zero] using h
  simp [loadPatients, hlen]

/-- Claim C5 witness: the amended theorem at concrete payloads. -/
theorem load_patients_spec_witness :
    loadPatients none = .ok demoPatients ∧
    loadPatients (some (.ok [pAbnormal])) = .ok [pAbnormal] :=
  ⟨(load_patients_spec [pAbnormal] "SyntaxError").1,
   (load_patients_spec [pAbnormal] "SyntaxError").2.2.1 (by decide)⟩

/-- Claim C5 counterexample: a stored payload whose parse fails makes the
load effect raise the parse error to the caller instead of falling back to
the demonstration seed records. -/
theorem corrupt_payload_raises_cex :
    loadPatients (some (.error "SyntaxError: Unexpected token")) =
      .error "SyntaxError: Unexpected token" ∧
    ¬ (loadPatients (some (.error "SyntaxError: Unexpected token")) = .ok demoPatients) :=
  ⟨rfl, fun h => nomatch h⟩

/-! ### Claim C7 — query semantics -/

/-- Conjunction of the two filters of the filter effect, with the same
skip-when-trivial structure as the code. -/
def codeQueryPred (searchTerm filterStatus : String) (p : Patient) : Bool :=
  (if searchTerm = "" then true else searchMatches searchTerm p) &&
  (if filterStatus = "all" then true else statusFilterMatches filterStatus p)

theorem filter_filter_and {α : Type} (s q : α → Bool) (l : List α) :
    (l.filter s).filter q = l.filter (fun a => s a && q a) := by
  induction l with
  | nil => rfl
  | cons a t ih =>
    by_cases hs : s a
    · by_cases hq : q a <;> simp [List.filter_cons, hs, hq, ih]
    · simp [List.filter_cons, hs, ih]

/-- Modelled from the spec words (refinement comparison only, not from the
code): `searchTerm` matches case-insensitively as a substring of name or id;
`filterStatus` of all matches everything, otherwise matches records whose
status contains the given category token. -/
def specQuery (ps : List Patient) (searchTerm filterStatus : String) : List Patient :=
  ps.filter (fun p =>
    (jsIncludes (jsToLower p.name) (jsToLower searchTerm) ||
     jsIncludes (jsToLower p.id) (jsToLower searchTerm)) &&
    (if filterStatus = "all" then true
     else jsIncludes (jsToLower p.status) (jsToLower filterStatus)))

/-- Claim C7 (amended): the query is the single-pass filter of the
conjunction of the two predicates, in registry order (the result is a
sublist of the registry), and the empty registry yields the empty result.
The status side of the predicate is NOT plain token containment: the
`normal` filter matches only records whose status is exactly `normal`
case-insensitively, `seizure` and `neurodegeneration` match by containment,
and any other non-`all` filter matches every record. -/
theorem query_characterization (ps : List Patient) (searchTerm filterStatus : String) :
    filterPatients ps searchTerm filterStatus =
      ps.filter (fun p => codeQueryPred searchTerm filterStatus p)
    ∧ (filterPatients ps searchTerm filterStatus).Sublist ps
    ∧ filterPatients [] searchTerm filterStatus = [] := by
  have h1 : filterPatients ps searchTerm filterStatus =
      ps.filter (fun p => codeQueryPred searchTerm filterStatus p) := by
    by_cases hs : searchTerm = ""
    · by_cases hf : filterStatus = "all"
      · subst hs; subst hf
        simp [filterPatients, codeQueryPred]
      · subst hs
        simp [filterPatients, codeQueryPred, hf]
    · by_cases hf : filterStatus = "all"
      · subst hf
        simp [filterPatients, codeQueryPred, hs]
      · have hsplit : filterPatients ps searchTerm filterStatus =
            (ps.filter (fun p => searchMatches searchTerm p)).filter
              (fun p => statusFilterMatches filterStatus p) := by
          simp [filterPatients, hs, hf]
        rw [hsplit, filter_filter_and]
        simp [codeQueryPred, hs, hf]
  refine ⟨h1, ?_, ?_⟩
  · rw [h1]; exact List.filter_sublist ps
  · simp [filterPatients]

/-- Claim C7 counterexample: a record whose status (Abnormal) contains the
token `normal` case-insensitively.  The claimed containment semantics
(`specQuery`) returns it for the `normal` filter, but the code excludes it,
because the `normal` branch is an equality test. -/
theorem query_normal_filter_cex :
    filterPatients [pAbnormal] "" "normal" = [] ∧
    specQuery [pAbnormal] "" "normal" = [pAbnormal] ∧
    jsIncludes (jsToLower pAbnormal.status) "normal" = true := by decide

/-! ### Claim C8 — validation before the network call -/

/-- Claim C8: a submission with no selected file, or with a patient name
that is empty after trimming, fails with the corresponding validation error
before the network call is reached (the third component records whether the
`analyzeEEG` call happened) and leaves both stores unchanged. -/
theorem validation_before_network (pd : PatientData)
    (net : Except String AnalysisResponse) (now today : String) (st : AppState) :
    handleSubmit none pd net now today st = (.noFileError, st, false)
    ∧ ∀ f : EEGFile, jsTrim pd.name = "" →
        handleSubmit (some f) pd net now today st = (.noNameError, st, false) := by
  refine ⟨rfl, ?_⟩
  intro f h
  simp [handleSubmit, h]

/-- Claim C8 witness: no file selected, and a whitespace-only patient name. -/
theorem validation_before_network_witness :
    handleSubmit none blankPD (.error "down") "T" "D" stWithOld =
      (SubmitOutcome.noFileError, stWithOld, false) ∧
    handleSubmit (some sampleFile) blankPD (.error "down") "T" "D" stWithOld =
      (SubmitOutcome.noNameError, stWithOld, false) :=
  ⟨(validation_before_network blankPD (.error "down") "T" "D" stWithOld).1,
   (validation_before_network blankPD (.error "down") "T" "D" stWithOld).2
     sampleFile (by decide)⟩

/-! ### Claim C9 — distribution percentages -/

/-- Claim C9: on the empty registry every distribution percentage is 0 (the
division is guarded by the `total > 0` test, so no undefined value arises in
the model), and on a nonempty registry each percentage times the total
equals the category count times 100, i.e. each percentage is count/total
expressed in percent. -/
theorem distribution_guarded (ps : List Patient) :
    computeDistribution [] = (0, 0, 0)
    ∧ (ps.length ≠ 0 →
        (computeDistribution ps).1 * (ps.length : Rat) = (normalCount ps : Rat) * 100
        ∧ (computeDistribution ps).2.1 * (ps.length : Rat) = (seizureCount ps : Rat) * 100
        ∧ (computeDistribution ps).2.2 * (ps.length : Rat) =
            (neurodegenerationCount ps : Rat) * 100) := by
  constructor
  · decide
  · intro h
    have hpos : 0 < ps.length := Nat.pos_of_ne_zero h
    have hne : (ps.length : Rat) ≠ 0 := Nat.cast_ne_zero.mpr h
    simp only [computeDistribution, distPercent, if_pos hpos]
    refine ⟨?_, ?_, ?_⟩ <;> field_simp

/-- Claim C9 witness: the empty case and the seeded registry. -/
theorem distribution_guarded_witness :
    computeDistribution [] = (0, 0, 0) ∧
    (computeDistribution demoPatients).1 * (demoPatients.length : Rat) =
      (normalCount demoPatients : Rat) * 100 :=
  ⟨(distribution_guarded []).1,
   ((distribution_guarded demoPatients).2 (by decide)).1⟩

/-! ### Claim C10 — local rejection of invalid files -/

/-- Claim C10: a selected file whose lowercased extension is not among the
allowed types, or whose size exceeds 100MB, is rejected locally: the
selected file is reset to absent and an error message is set; and any
submission attempted with no selected file fails with the no-file validation
error without reaching the network call or mutating the stores. -/
theorem invalid_file_rejected (f : EEGFile)
    (h : fileExtension f.name ∉ allowedTypes ∨ 100 * 1024 * 1024 < f.size) :
    (handleFileChange (some f)).1 = none
    ∧ (handleFileChange (some f)).2.isSome = true
    ∧ ∀ (pd : PatientData) (net : Except String AnalysisResponse)
        (now today : String) (st : AppState),
        handleSubmit none pd net now today st = (.noFileError, st, false) := by
  have hmain : (handleFileChange (some f)).1 = none
      ∧ (handleFileChange (some f)).2.isSome = true := by
    by_cases hext : fileExtension f.name ∈ allowedTypes
    · rcases h with hbad | hsize
      · exact absurd hext hbad
      · constructor <;> simp [handleFileChange, hext, hsize]
    · constructor <;> simp [handleFileChange, hext]
  exact ⟨hmain.1, hmain.2, fun pd net now today st => rfl⟩

/-- Claim C10 witness: a file with a disallowed extension is cleared. -/
theorem invalid_file_rejected_witness :
    (handleFileChange (some badFile)).1 = none ∧
    (handleFileChange (some badFile)).2.isSome = true :=
  ⟨(invalid_file_rejected badFile (Or.inl (by decide))).1,
   (invalid_file_rejected badFile (Or.inl (by decide))).2.1⟩

end EEG
